import Mathlib

/-
  Verification development for a two-phase business-directory scraper
  (golden_pages_scraper.py).  The Python source is embedded shallowly:

  * HTML documents are modelled as a tree of element/text nodes carrying the
    tag name, the raw class attribute, an optional href attribute and children.
  * BeautifulSoup queries used by the source (`find`, `find_all`,
    `find_next_sibling`, `.text`, `tag["href"]`) are modelled in document
    (preorder) order.  `find_next_sibling()` with no arguments returns the
    first *element* among the following siblings, skipping text nodes, and a
    found tag is always truthy, so `if not tag:` is a None test.
  * Python runtime errors (TypeError from subscripting None, KeyError from a
    missing attribute, IndexError from list indexing) are modelled with an
    `Except` monad.
  * The network fetcher is modelled as an oracle `String → Option Node`
    (None is a failed fetch, mirroring get_html_content returning None).
-/

namespace GoldenPages

/-- Python runtime errors that the scraper code can raise. -/
inductive PyErr where
  | typeError
  | keyError
  | indexError
  | valueError
deriving Repr, DecidableEq

/-- Whitespace recognised by Python str.strip (ASCII subset: space, tab,
newline, carriage return, vertical tab, form feed). -/
def isPySpace (c : Char) : Bool :=
  c = ' ' || c = '\t' || c = '\n' || c = '\r' || c.toNat = 11 || c.toNat = 12

/-- Strip leading and trailing whitespace from a character list. -/
def trimChars (l : List Char) : List Char :=
  ((l.dropWhile isPySpace).reverse.dropWhile isPySpace).reverse

/-- Python str.strip(). -/
def pyStrip (s : String) : String := ⟨trimChars s.data⟩

/-- Core of Python s.split(sep, 1): locate the first occurrence of `sep` and
return the pieces before and after it (None when `sep` does not occur).
Used with a nonempty separator only, as in the source. -/
def splitFirst (sep : List Char) : List Char → Option (List Char × List Char)
  | [] => none
  | c :: rest =>
    if sep.isPrefixOf (c :: rest) then some ([], (c :: rest).drop sep.length)
    else
      match splitFirst sep rest with
      | some (a, b) => some (c :: a, b)
      | none => none

/-- Python s.split(sep, 1): one element when `sep` is absent, two otherwise. -/
def pySplit1 (s sep : String) : List String :=
  match splitFirst sep.data s.data with
  | none => [s]
  | some (a, b) => [⟨a⟩, ⟨b⟩]

/-- Replace every occurrence of `pat`, left to right, non-overlapping
(Python str.replace with a nonempty pattern, as used in the source).
`skip` counts characters of an already-emitted match still to consume. -/
def replaceAllAux (pat repl : List Char) : List Char → Nat → List Char
  | [], _ => []
  | _ :: rest, skip + 1 => replaceAllAux pat repl rest skip
  | c :: rest, 0 =>
    if pat.isEmpty then c :: replaceAllAux pat repl rest 0
    else if pat.isPrefixOf (c :: rest) then
      repl ++ replaceAllAux pat repl rest (pat.length - 1)
    else c :: replaceAllAux pat repl rest 0

/-- Python s.replace(pat, repl). -/
def pyReplace (s pat repl : String) : String :=
  ⟨replaceAllAux pat.data repl.data s.data 0⟩

/-- Split a character list into maximal whitespace-free words. -/
def wordsAux : List Char → List Char → List (List Char)
  | [], cur => if cur.isEmpty then [] else [cur.reverse]
  | c :: rest, cur =>
    if isPySpace c then
      if cur.isEmpty then wordsAux rest [] else cur.reverse :: wordsAux rest []
    else wordsAux rest (c :: cur)

/-- The whitespace-separated tokens of an HTML class attribute. -/
def classTokens (s : String) : List String :=
  (wordsAux s.data []).map (fun l => ⟨l⟩)

/-- BeautifulSoup class matching: the requested class matches when it equals
one of the attribute's tokens or the whole attribute string. -/
def classMatches (want classAttr : String) : Bool :=
  (classTokens classAttr).contains want || want == classAttr

/-- An HTML node: an element with tag name, raw class attribute, optional
href attribute and children, or a text node. -/
inductive Node where
  | elem (tag : String) (classAttr : String) (href : Option String)
         (children : List Node)
  | text (s : String)

/-- The children of a node (text nodes have none). -/
def Node.children : Node → List Node
  | .elem _ _ _ cs => cs
  | .text _ => []

/-- Whether a node is an element (a BeautifulSoup Tag). -/
def Node.isElem : Node → Bool
  | .elem _ _ _ _ => true
  | .text _ => false

/-- The href attribute of a node, when present. -/
def hrefOf : Node → Option String
  | .elem _ _ h _ => h
  | .text _ => none

mutual
/-- BeautifulSoup find over a sibling list, document (preorder) order:
the first matching node together with its following siblings. -/
def findInList (p : Node → Bool) : List Node → Option (Node × List Node)
  | [] => none
  | c :: rest =>
    if p c then some (c, rest)
    else
      match findInNode p c with
      | some r => some r
      | none => findInList p rest

/-- BeautifulSoup find among the descendants of one node. -/
def findInNode (p : Node → Bool) : Node → Option (Node × List Node)
  | .elem _ _ _ cs => findInList p cs
  | .text _ => none
end

mutual
/-- BeautifulSoup find_all over a sibling list, document order (matches
nested inside matches are also reported). -/
def findAllList (p : Node → Bool) : List Node → List Node
  | [] => []
  | c :: rest => (if p c then [c] else []) ++ findAllNode p c ++ findAllList p rest

/-- BeautifulSoup find_all among the descendants of one node. -/
def findAllNode (p : Node → Bool) : Node → List Node
  | .elem _ _ _ cs => findAllList p cs
  | .text _ => []
end

mutual
/-- Tag.text: concatenation of all descendant text, document order. -/
def textOfNode : Node → String
  | .elem _ _ _ cs => textOfList cs
  | .text s => s

/-- Concatenated text of a list of nodes. -/
def textOfList : List Node → String
  | [] => ""
  | c :: rest => textOfNode c ++ textOfList rest
end

/-- Selector matching a tag name only, e.g. find("a"). -/
def tagSel (tag : String) : Node → Bool
  | .elem t _ _ _ => t == tag
  | .text _ => false

/-- Selector matching a tag name and a class, e.g. find("div", class_=...). -/
def tagClsSel (tag cls : String) : Node → Bool
  | .elem t c _ _ => t == tag && classMatches cls c
  | .text _ => false

/-- tag.find(...): first matching descendant. -/
def Node.find (n : Node) (p : Node → Bool) : Option Node :=
  (findInNode p n).map Prod.fst

/-- tag.find(...), keeping the following siblings of the match so that
find_next_sibling can be modelled on the result. -/
def Node.findWithFollow (n : Node) (p : Node → Bool) : Option (Node × List Node) :=
  findInNode p n

/-- tag.find_next_sibling() with no arguments: the first element among the
following siblings (text siblings are skipped). -/
def nextSiblingTag (follow : List Node) : Option Node :=
  follow.find? Node.isElem

/-- Python x["href"] on an Option: subscripting None raises TypeError,
a tag without the attribute raises KeyError. -/
def pyHrefSub : Option Node → Except PyErr String
  | none => .error .typeError
  | some n =>
    match hrefOf n with
    | some h => .ok h
    | none => .error .keyError

/-- The "Not found" sentinel used for unresolved contact fields. -/
def notFound : String := "Not found"

/-- A listing reference produced by the Search-Result Extractor:
the dict literal with keys name and link built at line 68 of the source;
equality of the corresponding Python item tuples is equality of the
(name, link) field pair. -/
structure Biz where
  name : String
  link : String
deriving Repr, DecidableEq

/-- The title anchor of one listing container: the a inside the h3 with
class listing_title, exactly the guard of lines 60-61 and 64 of the
source (a found Tag is always truthy). -/
def titleAnchor (listing : Node) : Option Node :=
  match listing.find (tagClsSel "h3" "listing_title") with
  | some le => le.find (tagSel "a")
  | none => none

/-- The per-listing loop of extract_links_from_search (lines 58-68):
for each container, read the title anchor's href (KeyError when the
attribute is missing), split the anchor text on the first period, and,
when the href is truthy, append {name: parts[1].strip(), link: href}
(IndexError when the text has no period). -/
def extractLoop : List Node → Except PyErr (List Biz)
  | [] => .ok []
  | listing :: rest =>
    match titleAnchor listing with
    | none => extractLoop rest
    | some a =>
      match hrefOf a with
      | none => .error .keyError
      | some link =>
        let name := pySplit1 (textOfNode a) "."
        if link = "" then extractLoop rest
        else
          match name.get? 1 with
          | none => .error .indexError
          | some n1 =>
            match extractLoop rest with
            | .error e => .error e
            | .ok tail => .ok (⟨pyStrip n1, link⟩ :: tail)

/-- extract_links_from_search: collect all div.listing_container
descendants; an empty match list yields the empty result (the
pagination-termination signal), otherwise run the per-listing loop. -/
def extract_links_from_search (soup : Node) : Except PyErr (List Biz) :=
  let listings := findAllNode (tagClsSel "div" "listing_container") soup
  if listings.isEmpty then .ok []
  else extractLoop listings

/-- The detail record built by scrape_business_page (lines 85-89). -/
structure Details where
  link : String
  email : String
  website : String
deriving Repr, DecidableEq

/-- The contact-info container lookup of line 97 of the source. -/
def contactFind (s : Node) : Option Node :=
  s.find (tagClsSel "div" "details_contact_other col_item width_2_4")

/-- The website lookup of lines 101-115: primary anchor a.yext.homepage,
else the next element sibling of span.icon_website.  The outer `none`
is the early `return details` taken when neither the primary anchor nor
the icon exists; the inner Option is the value of website_link_element,
which can be None when the icon has no following element sibling. -/
def websiteElemOf (bci : Node) : Option (Option Node) :=
  match bci.find (tagClsSel "a" "yext.homepage") with
  | some w => some (some w)
  | none =>
    match bci.findWithFollow (tagClsSel "span" "icon_website") with
    | some (_, follow) => some (nextSiblingTag follow)
    | none => none

/-- The email lookup of lines 119-130: primary anchor a.yext.email, else
the next element sibling of span.icon_email (None when neither resolves). -/
def emailElemOf (bci : Node) : Option Node :=
  match bci.find (tagClsSel "a" "yext.email") with
  | some e => some e
  | none =>
    match bci.findWithFollow (tagClsSel "span" "icon_email") with
    | some (_, follow) => nextSiblingTag follow
    | none => none

/-- scrape_business_page, with the Fetcher's result passed in (the source
fetches `url` itself via get_html_content; None models a failed fetch).
Mirrors lines 84-140: on no soup or no contact container the sentinel
record is returned; the website commit and the email commit both sit
inside `if email_link_element:`, and the two href subscripts (lines 134
and 137) can raise TypeError (None) or KeyError (missing href). -/
def scrape_business_page (url : String) (soup : Option Node) : Except PyErr Details :=
  let details : Details := ⟨url, notFound, notFound⟩
  match soup with
  | none => .ok details
  | some s =>
    match contactFind s with
    | none => .ok details
    | some bci =>
      match websiteElemOf bci with
      | none => .ok details
      | some website_link_element =>
        match emailElemOf bci with
        | none => .ok details
        | some email_link_element =>
          match pyHrefSub website_link_element with
          | .error e => .error e
          | .ok wh =>
            match pyHrefSub (some email_link_element) with
            | .error e => .error e
            | .ok eh =>
              .ok ⟨url, pyStrip (pyReplace eh "mailto:" ""), wh⟩

/-- The final record {name, link, email, website} appended in Phase 2. -/
structure FinalRecord where
  name : String
  link : String
  email : String
  website : String
deriving Repr, DecidableEq

/-- Host prepended to relative links in Phase 2 (line 234). -/
def baseHost : String := "https://www.goldenpages.ie"

/-- The search base URL of the driver (line 182). -/
def base_url_pattern : String :=
  "https://www.goldenpages.ie/q/business/advanced/what/plumbers/"

/-- The page ceiling of the driver (line 180). -/
def MAX_PAGES : Nat := 95

/-- Page URL construction (line 191): page 1 is the bare base URL, later
pages append the page number and a slash. -/
def pageURL (base : String) (n : Nat) : String :=
  if n > 1 then base ++ toString n ++ "/" else base

/-- all_business_links_set.add(tuple(link_data.items())) (line 206): add
a listing reference to the deduplicating set, modelled as a list without
duplicates kept in first-insertion order. -/
def setAdd (s : List Biz) (b : Biz) : List Biz :=
  if b ∈ s then s else s ++ [b]

/-- Result of Phase 1: the URLs requested, in order, and the contents of
the deduplicating link set. -/
structure Phase1Result where
  requested : List String
  links : List Biz
deriving Repr, DecidableEq

/-- The Phase 1 pagination loop (lines 189-213): for each page number,
request the page URL; a failed fetch breaks, an empty extraction breaks,
otherwise all extracted listings are added to the set and the next page
is processed.  `fuel` counts the page numbers still allowed by the
ceiling; `page` is the current page number. -/
def phase1Loop (fetch : String → Option Node) (base : String) :
    Nat → Nat → List String → List Biz → Except PyErr Phase1Result
  | 0, _, req, acc => .ok ⟨req, acc⟩
  | fuel + 1, page, req, acc =>
    let url := pageURL base page
    match fetch url with
    | none => .ok ⟨req ++ [url], acc⟩
    | some soup =>
      match extract_links_from_search soup with
      | .error e => .error e
      | .ok links =>
        if links.isEmpty then .ok ⟨req ++ [url], acc⟩
        else phase1Loop fetch base fuel (page + 1) (req ++ [url]) (links.foldl setAdd acc)

/-- Phase 1 of the driver with a given page ceiling. -/
def phase1 (fetch : String → Option Node) (base : String) (maxPages : Nat) :
    Except PyErr Phase1Result :=
  phase1Loop fetch base maxPages 1 [] []

/-- Phase 2 of the driver (lines 230-252): for each unique listing, scrape
the absolute detail URL and append the merged record only when the
resolved website differs from the sentinel. -/
def phase2 (fetch : String → Option Node) : List Biz → Except PyErr (List FinalRecord)
  | [] => .ok []
  | b :: rest =>
    match scrape_business_page (baseHost ++ b.link) (fetch (baseHost ++ b.link)) with
    | .error e => .error e
    | .ok details =>
      match phase2 fetch rest with
      | .error e => .error e
      | .ok tail =>
        if details.website = notFound then .ok tail
        else .ok (⟨b.name, details.link, details.email, details.website⟩ :: tail)

/-- The filesystem, modelled as an association of filenames to contents. -/
abbrev FS := List (String × String)

/-- Content of a file, when it exists. -/
def fsRead (fs : FS) (f : String) : Option String :=
  (fs.find? (fun p => p.1 == f)).map (fun p => p.2)

/-- Write a file, replacing any previous content. -/
def fsWrite : FS → String → String → FS
  | [], f, c => [(f, c)]
  | (g, d) :: rest, f, c =>
    if g == f then (f, c) :: rest else (g, d) :: fsWrite rest f c

/-- A row dict handed to save_to_csv: ordered key/value pairs, mirroring a
Python dict's insertion order. -/
abbrev PyDict := List (String × String)

/-- csv QUOTE_MINIMAL: quote a field containing the delimiter, the quote
character or a line-terminator character, doubling inner quotes. -/
def csvQuoteField (s : String) : String :=
  if s.data.any (fun c => c = ',' || c = '"' || c = '\n' || c = '\r') then
    "\"" ++ pyReplace s "\"" "\"\"" ++ "\""
  else s

/-- One CSV record: comma-joined quoted fields plus the CRLF terminator. -/
def csvRow (fields : List String) : String :=
  String.intercalate "," (fields.map csvQuoteField) ++ "\r\n"

/-- csv.DictWriter row conversion: a key outside the field names raises
ValueError (extrasaction defaults to raise); a missing key falls back to
the restval None, written as the empty field. -/
def dictToRow (fieldnames : List String) (r : PyDict) : Except PyErr (List String) :=
  if r.all (fun kv => fieldnames.contains kv.1) then
    .ok (fieldnames.map (fun k =>
      (((r.find? (fun kv => kv.1 == k)).map (fun kv => kv.2)).getD "")))
  else .error .valueError

/-- writer.writerows: rows are emitted one by one; a ValueError mid-way
leaves the earlier rows written (the exception is then caught and logged
by save_to_csv, so only the emitted prefix reaches the file). -/
def writeRows (fieldnames : List String) : List PyDict → String
  | [] => ""
  | r :: rest =>
    match dictToRow fieldnames r with
    | .error _ => ""
    | .ok row => csvRow row ++ writeRows fieldnames rest

/-- save_to_csv (lines 143-169) as a filesystem transformer: with no data
it logs and returns at once, touching no file; otherwise it opens the
file (mode "a" appends to existing content, any other mode truncates),
writes the header when requested, then the rows.  In this pure model the
underlying file I/O always succeeds, so the IOError handler of the
source is never exercised; the ValueError path of DictWriter is modelled
in writeRows. -/
def save_to_csv (data : List PyDict) (filename mode : String) (header : Bool)
    (fs : FS) : FS :=
  if data.isEmpty then fs
  else
    let fieldnames := (data.headD []).map (fun kv => kv.1)
    let content :=
      (if header then csvRow fieldnames else "") ++ writeRows fieldnames data
    let newContent :=
      if mode == "a" then ((fsRead fs filename).getD "") ++ content else content
    fsWrite fs filename newContent

/-! Concrete documents used as scenario inputs and witnesses. -/

/-- A single-container listing-index page whose title anchor has text `t`
and href `h`. -/
def mkListingDoc (t h : String) : Node :=
  .elem "html" "" none [
    .elem "div" "listing_container" none [
      .elem "h3" "listing_title" none [
        .elem "a" "" (some h) [.text t]]]]

/-- The listing-index page of the C6 scenario. -/
def soupC6 : Node := mkListingDoc "Acme.Plumbing Co" "/biz/123"

/-- Contact container with an email anchor followed by a website icon that
has no following element sibling. -/
def contactDivC2 : Node :=
  .elem "div" "details_contact_other col_item width_2_4" none [
    .elem "a" "yext.email" (some "mailto:a@b.com") [.text "mail"],
    .elem "span" "icon_website" none []]

/-- Detail page for the C2 failing input. -/
def soupC2 : Node := .elem "html" "" none [contactDivC2]

/-- Website anchor of the C7 document. -/
def webAnchorC7 : Node := .elem "a" "yext.homepage" (some "http://x.com") [.text "w"]

/-- Email anchor of the C7 document, whose href contains a nested
non-prefix occurrence of mailto: once the leading one is removed. -/
def emailAnchorC7 : Node :=
  .elem "a" "yext.email" (some "mailto:mailto:a@b.com") [.text "m"]

/-- Contact container with both primary anchors resolvable. -/
def contactDivC7 : Node :=
  .elem "div" "details_contact_other col_item width_2_4" none
    [webAnchorC7, emailAnchorC7]

/-- Detail page for the C7 counterexample. -/
def soupC7 : Node := .elem "html" "" none [contactDivC7]

/-- Contact container holding a website anchor but no email anchor and no
email icon. -/
def contactDivC1 : Node :=
  .elem "div" "details_contact_other col_item width_2_4" none
    [.elem "a" "yext.homepage" (some "http://x.com") [.text "w"]]

/-- Detail page for the C1 witness: website locatable, email not. -/
def soupC1 : Node := .elem "html" "" none [contactDivC1]

/-- A detail page without the contact-info container. -/
def soupNoContact : Node := .elem "html" "" none [.elem "div" "other" none [.text "x"]]

/-- A listing-index page with no listing containers. -/
def soupNoListings : Node := .elem "html" "" none [.elem "div" "other" none []]

/-- What the C7 claim sentence says the committed email is: the raw href
with a leading mailto: prefix removed and surrounding whitespace trimmed,
non-prefix occurrences left intact.  Modelled from the claim's words, to
be compared with the behaviour of the source. -/
def claimedEmailTransform (h : String) : String :=
  pyStrip (if ("mailto:".data).isPrefixOf h.data then ⟨h.data.drop 7⟩ else h)

/-! Claim theorems. -/

/-- C1: in the Detail Extractor, with the contact-info container present,
the website field is committed only if an email anchor was found: when the
email lookup fails the returned record keeps both sentinels even if a
website anchor was located, and a returned record with a non-sentinel
website implies the email lookup succeeded. -/
theorem c1_website_commit_gated_on_email (url : String) (s bci : Node)
    (hc : contactFind s = some bci) :
    (emailElemOf bci = none →
      scrape_business_page url (some s) = .ok ⟨url, notFound, notFound⟩)
    ∧ (∀ d, scrape_business_page url (some s) = .ok d →
        d.website ≠ notFound → (emailElemOf bci).isSome) := by
  constructor
  · intro he
    cases hw : websiteElemOf bci <;>
      simp [scrape_business_page, hc, hw, he]
  · intro d hd hweb
    cases he : emailElemOf bci with
    | some e => rfl
    | none =>
      cases hw : websiteElemOf bci <;>
        simp [scrape_business_page, hc, hw, he] at hd <;>
        simp [← hd, Details.website, notFound] at hweb

/-- C1 witness: a concrete detail page whose contact container holds a
website anchor but no email anchor; the record keeps both sentinels. -/
theorem c1_witness :
    contactFind soupC1 = some contactDivC1
    ∧ emailElemOf contactDivC1 = none
    ∧ scrape_business_page "u" (some soupC1) = .ok ⟨"u", notFound, notFound⟩ :=
  ⟨rfl, rfl, (c1_website_commit_gated_on_email "u" soupC1 contactDivC1 rfl).1 rfl⟩

/-- C2: the claim says missing HTML structure never raises; but on a page
whose contact container has a website icon with no following element
sibling while an email anchor is present, the source subscripts None
(line 134) and raises TypeError.  The embedding returns that error at
this concrete failing input. -/
theorem c2_icon_without_sibling_raises :
    scrape_business_page "u" (some soupC2) = .error .typeError := rfl

/-- C6: on a listing-index page with one container whose title link is
an anchor with href /biz/123 and text Acme.Plumbing Co, the extractor
returns exactly the record with name Plumbing Co and link /biz/123. -/
theorem c6_scenario :
    extract_links_from_search soupC6 = .ok [⟨"Plumbing Co", "/biz/123"⟩] := rfl

/-- C7 counterexample: at an email anchor href holding a second,
non-prefix occurrence of mailto:, the committed email differs from the
claim's leading-prefix-only transform (the source removes every
occurrence, line 137). -/
theorem c7_counterexample :
    scrape_business_page "u" (some soupC7)
      = .ok ⟨"u", "a@b.com", "http://x.com"⟩
    ∧ ("a@b.com" : String) ≠ claimedEmailTransform "mailto:mailto:a@b.com" :=
  ⟨rfl, by decide⟩

/-- C7 amended: whenever the Detail Extractor commits contact fields (both
lookups succeed and both hrefs are present), the stored email equals the
raw email href with every occurrence of mailto: removed, left to right,
and the result stripped of surrounding whitespace. -/
theorem c7_email_replace_all (url : String) (s bci w e : Node) (wh eh : String)
    (hc : contactFind s = some bci)
    (hw : websiteElemOf bci = some (some w)) (hwh : hrefOf w = some wh)
    (he : emailElemOf bci = some e) (heh : hrefOf e = some eh) :
    scrape_business_page url (some s)
      = .ok ⟨url, pyStrip (pyReplace eh "mailto:" ""), wh⟩ := by
  simp [scrape_business_page, hc, hw, he, pyHrefSub, hwh, heh]

/-- C7 amended witness: the C7 document commits email a@b.com, which is
the replace-all-then-strip transform of its raw href. -/
theorem c7_email_replace_all_witness :
    contactFind soupC7 = some contactDivC7
    ∧ emailElemOf contactDivC7 = some emailAnchorC7
    ∧ scrape_business_page "u" (some soupC7)
        = .ok ⟨"u", pyStrip (pyReplace "mailto:mailto:a@b.com" "mailto:" ""),
               "http://x.com"⟩ :=
  ⟨rfl, rfl,
    c7_email_replace_all "u" soupC7 contactDivC7 webAnchorC7 emailAnchorC7
      "http://x.com" "mailto:mailto:a@b.com" rfl rfl rfl rfl rfl⟩

/-- C8: the Detail Extractor returns the record with link set to the input
URL and both contact fields at the sentinel when the fetch fails, and
likewise when the fetched page has no contact-info container. -/
theorem c8_sentinel_on_failure (url : String) (s : Node) :
    scrape_business_page url none = .ok ⟨url, notFound, notFound⟩
    ∧ (contactFind s = none →
        scrape_business_page url (some s) = .ok ⟨url, notFound, notFound⟩) := by
  refine ⟨rfl, fun hc => ?_⟩
  simp [scrape_business_page, hc]

/-- C8 witness: a failed fetch and a concrete contact-less page both give
the sentinel record. -/
theorem c8_sentinel_on_failure_witness :
    scrape_business_page "u" none = .ok ⟨"u", notFound, notFound⟩
    ∧ contactFind soupNoContact = none
    ∧ scrape_business_page "u" (some soupNoContact)
        = .ok ⟨"u", notFound, notFound⟩ :=
  ⟨(c8_sentinel_on_failure "u" soupNoContact).1, rfl,
    (c8_sentinel_on_failure "u" soupNoContact).2 rfl⟩

/-- Membership in the deduplicating set after one add. -/
lemma mem_setAdd (s : List Biz) (a b : Biz) : b ∈ setAdd s a ↔ b ∈ s ∨ b = a := by
  unfold setAdd
  split
  · rename_i ha
    constructor
    · exact Or.inl
    · rintro (hb | rfl)
      · exact hb
      · exact ha
  · simp

/-- Adding to the deduplicating set preserves the no-duplicates invariant. -/
lemma nodup_setAdd (s : List Biz) (a : Biz) (h : s.Nodup) : (setAdd s a).Nodup := by
  unfold setAdd
  split
  · exact h
  · rename_i ha
    simp [List.nodup_append, h, ha]

/-- Membership after folding a batch of listings into the set. -/
lemma mem_foldl_setAdd (l : List Biz) :
    ∀ (acc : List Biz) (b : Biz), b ∈ l.foldl setAdd acc ↔ b ∈ acc ∨ b ∈ l := by
  induction l with
  | nil => simp
  | cons x xs ih =>
    intro acc b
    simp only [List.foldl_cons, ih, mem_setAdd, List.mem_cons]
    tauto

/-- Folding a batch of listings into the set preserves no-duplicates. -/
lemma nodup_foldl_setAdd (l : List Biz) :
    ∀ acc : List Biz, acc.Nodup → (l.foldl setAdd acc).Nodup := by
  induction l with
  | nil => intro acc h; simpa
  | cons x xs ih => intro acc h; exact ih _ (nodup_setAdd _ _ h)

/-- C4: folding any multiset of collected listing references into the
deduplicating set (the Phase 1 add of line 206) keeps a reference if and
only if it occurred in the input, and keeps each exactly once: references
identical in both fields collapse to a single entry, references differing
in either field are both retained. -/
theorem c4_dedup_exact_tuple (links : List Biz) :
    (∀ b, b ∈ links.foldl setAdd [] ↔ b ∈ links)
    ∧ (∀ b, (links.foldl setAdd []).count b = if b ∈ links then 1 else 0) := by
  have hm := mem_foldl_setAdd links []
  have hd := nodup_foldl_setAdd links [] (by simp)
  refine ⟨fun b => by simp [hm b], fun b => ?_⟩
  by_cases hb : b ∈ links
  · rw [if_pos hb]
    exact List.count_eq_one_of_mem hd ((hm b).mpr (Or.inr hb))
  · rw [if_neg hb]
    refine List.count_eq_zero_of_not_mem (fun hmem => ?_)
    rcases (hm b).mp hmem with h | h
    · simp at h
    · exact hb h

/-- C3: every record in the Phase 2 output collection has a website
different from the Not found sentinel. -/
theorem c3_output_never_sentinel (fetch : String → Option Node) :
    ∀ (links : List Biz) (out : List FinalRecord),
      phase2 fetch links = .ok out → ∀ r ∈ out, r.website ≠ notFound := by
  intro links
  induction links with
  | nil =>
    intro out h r hr
    simp only [phase2] at h
    cases h
    simp at hr
  | cons b rest ih =>
    intro out h r hr
    simp only [phase2] at h
    rcases hs : scrape_business_page (baseHost ++ b.link) (fetch (baseHost ++ b.link))
      with e | details
    · simp only [hs] at h
      cases h
    · simp only [hs] at h
      rcases ht : phase2 fetch rest with e | tail
      · simp only [ht] at h
        cases h
      · simp only [ht] at h
        by_cases hw : details.website = notFound
        · rw [if_pos hw] at h
          cases h
          exact ih _ ht r hr
        · rw [if_neg hw] at h
          cases h
          rcases List.mem_cons.mp hr with rfl | hr2
          · simpa using hw
          · exact ih tail ht r hr2

/-- Detail-page oracle for the C3 witness: every URL resolves to the page
with both contact anchors. -/
def fetchC3 (_ : String) : Option Node := some soupC7

/-- The single record the C3 witness pipeline produces. -/
def recC3 : FinalRecord := ⟨"n", baseHost ++ "/x", "a@b.com", "http://x.com"⟩

/-- C3 witness: a concrete Phase 2 run producing one record, whose
website is not the sentinel. -/
theorem c3_output_never_sentinel_witness :
    phase2 fetchC3 [⟨"n", "/x"⟩] = .ok [recC3] ∧ recC3.website ≠ notFound :=
  ⟨rfl, c3_output_never_sentinel fetchC3 [⟨"n", "/x"⟩] [recC3] rfl recC3 (by simp)⟩

/-- One unfolding step of the Phase 1 pagination loop. -/
lemma phase1Loop_step (fetch : String → Option Node) (base : String)
    (fuel page : Nat) (req : List String) (acc : List Biz) :
    phase1Loop fetch base (fuel + 1) page req acc =
      match fetch (pageURL base page) with
      | none => .ok ⟨req ++ [pageURL base page], acc⟩
      | some soup =>
        match extract_links_from_search soup with
        | .error e => .error e
        | .ok links =>
          if links.isEmpty then .ok ⟨req ++ [pageURL base page], acc⟩
          else phase1Loop fetch base fuel (page + 1) (req ++ [pageURL base page])
                 (links.foldl setAdd acc) := rfl

/-- C5: with page ceiling 3, when page 1 yields a nonempty batch of
listings and page 2 either fails to fetch or yields zero containers,
Phase 1 requests exactly the page 1 and page 2 URLs — page 3 is never
requested — and page 1 uses the bare base URL. -/
theorem c5_pagination_halts (fetch : String → Option Node) (base : String)
    (s1 : Node) (l1 : List Biz)
    (h1 : fetch base = some s1)
    (h2 : extract_links_from_search s1 = .ok l1)
    (h3 : l1 ≠ [])
    (h4 : fetch (pageURL base 2) = none ∨
          ∃ s2, fetch (pageURL base 2) = some s2
                ∧ extract_links_from_search s2 = .ok []) :
    phase1 fetch base 3 = .ok ⟨[base, pageURL base 2], l1.foldl setAdd []⟩
    ∧ pageURL base 1 = base := by
  have hp1 : pageURL base 1 = base := rfl
  refine ⟨?_, hp1⟩
  have hne : l1.isEmpty = false := by
    cases l1 with
    | nil => exact absurd rfl h3
    | cons x xs => rfl
  rcases h4 with h4 | ⟨s2, h4a, h4b⟩
  · simp [phase1, phase1Loop_step, hp1, h1, h2, hne, h4]
  · simp [phase1, phase1Loop_step, hp1, h1, h2, hne, h4a, h4b]

/-- Listing-index oracle for the C5 witness: page 1 has one listing,
page 2 has none, any later page would have a listing again. -/
def fetchC5 (u : String) : Option Node :=
  if u = base_url_pattern then some soupC6
  else if u = pageURL base_url_pattern 2 then some soupNoListings
  else some soupC6

/-- C5 witness: the concrete scenario with ceiling 3 and an empty page 2
requests exactly pages 1 and 2. -/
theorem c5_pagination_halts_witness :
    fetchC5 base_url_pattern = some soupC6
    ∧ extract_links_from_search soupC6 = .ok [⟨"Plumbing Co", "/biz/123"⟩]
    ∧ (phase1 fetchC5 base_url_pattern 3
        = .ok ⟨[base_url_pattern, pageURL base_url_pattern 2],
               [(⟨"Plumbing Co", "/biz/123"⟩ : Biz)].foldl setAdd []⟩
       ∧ pageURL base_url_pattern 1 = base_url_pattern) :=
  ⟨rfl, rfl,
    c5_pagination_halts fetchC5 base_url_pattern soupC6
      [⟨"Plumbing Co", "/biz/123"⟩] rfl rfl (by simp)
      (Or.inr ⟨soupNoListings, rfl, rfl⟩)⟩

/-- The Search-Result Extractor on the one-container page, traced up to
the branches that depend on the anchor text and href. -/
lemma extract_mkListingDoc (t h : String) :
    extract_links_from_search (mkListingDoc t h) =
      if h = "" then .ok []
      else
        match (pySplit1 (t ++ "") ".").get? 1 with
        | none => .error .indexError
        | some n1 => .ok [⟨pyStrip n1, h⟩] := rfl

/-- C9: the Search-Result Extractor is partial.  On a container whose
title-anchor href is truthy, when splitting the anchor text on the first
period yields a single-element list, indexing element 1 raises IndexError;
when the text does contain a period the extractor succeeds, returning the
trimmed remainder as the name. -/
theorem c9_no_period_raises (t h : String) (hne : h ≠ "") :
    ((pySplit1 t ".").length = 1 →
      extract_links_from_search (mkListingDoc t h) = .error .indexError)
    ∧ (∀ a b, pySplit1 t "." = [a, b] →
        extract_links_from_search (mkListingDoc t h) = .ok [⟨pyStrip b, h⟩]) := by
  have key := extract_mkListingDoc t h
  rw [String.append_empty, if_neg hne] at key
  constructor
  · intro hl
    have hg : (pySplit1 t ".").get? 1 = none := by
      cases hsp : pySplit1 t "." with
      | nil => simp
      | cons x xs =>
        cases xs with
        | nil => simp
        | cons y ys => rw [hsp] at hl; simp at hl
    rw [key, hg]
  · intro a b hab
    rw [key, hab]
    rfl

/-- C9 witness: a period-free anchor text raises IndexError at a concrete
input. -/
theorem c9_no_period_raises_witness :
    ("/x" : String) ≠ ""
    ∧ (pySplit1 "Acme Plumbing" ".").length = 1
    ∧ extract_links_from_search (mkListingDoc "Acme Plumbing" "/x")
        = .error .indexError :=
  ⟨by decide, rfl, (c9_no_period_raises "Acme Plumbing" "/x" (by decide)).1 rfl⟩

/-- C10: calling save_to_csv with an empty data list leaves the filesystem
unchanged for every filename, mode and header flag: no file is opened or
written, and an existing file at the target name keeps its content. -/
theorem c10_empty_data_writes_nothing (filename mode : String) (header : Bool)
    (fs : FS) : save_to_csv [] filename mode header fs = fs := rfl

end GoldenPages
